import Mathlib

/-
Shallow embedding of `src/ffi/client.rs` from the hyper FFI client-connection
bridge: the connection-options builder, the client handshake and the
request-send operation, together with the ownership effects (which input
handles each call consumes) and the executor weak-reference discipline.

Pieces of the repository that `client.rs` uses but that are not among the
provided sources (`hyper_code` from `error.rs`, `WeakExec` / `hyper_executor`
from `task.rs`, `finalize_request` from `http_types.rs`, and the `non_null!`
guard from `macros.rs`) are modelled from the spec, each marked in its doc
comment.
-/

/-- Modelled from the spec: the boundary status codes (`hyper_code` in
`src/ffi/error.rs`, not among the provided sources). Only the codes reached
from `client.rs` are needed: success, invalid argument, feature-not-enabled,
and a generic error. -/
inductive hyper_code where
  | HYPERE_OK
  | HYPERE_ERROR
  | HYPERE_INVALID_ARG
  | HYPERE_FEATURE_NOT_ENABLED
deriving DecidableEq, Repr

/-- An executor identity: the address of a shared `hyper_executor`. -/
abbrev ExecId := Nat

/-- Modelled from the spec: the strong and weak reference counts of each
shared executor (`Arc<hyper_executor>` in `src/ffi/task.rs`, not among the
provided sources). An executor `e` is alive exactly while `strong e > 0`. -/
structure ExecHeap where
  strong : ExecId → Nat
  weak : ExecId → Nat

/-- Modelled from the spec: `WeakExec` (`src/ffi/task.rs`, not among the
provided sources) is a non-owning reference to an executor. `WeakExec.new`
models `WeakExec::new()`, which holds no referent at all. -/
inductive WeakExec where
  | new : WeakExec
  | ref (e : ExecId) : WeakExec
deriving DecidableEq, Repr

/-- Modelled from the spec: upgrading a weak reference yields an owning
reference only while the strong side is still alive; an empty weak reference
upgrades to nothing. -/
def WeakExec.upgrade (w : WeakExec) (h : ExecHeap) : Option ExecId :=
  match w with
  | .new => none
  | .ref e => if 0 < h.strong e then some e else none

/-- The options builder `hyper_clientconn_options` of `client.rs`: three
HTTP/1 header-handling flags, the HTTP/2 selection flag, and a weak executor
reference. -/
structure hyper_clientconn_options where
  http1_allow_obsolete_multiline_headers_in_responses : Bool
  http1_preserve_header_case : Bool
  http1_preserve_header_order : Bool
  http2 : Bool
  exec : WeakExec
deriving DecidableEq, Repr

/-- An opaque transport handle (a `hyper_io` value passed by pointer). -/
abbrev Transport := Nat

/-- An opaque protocol-engine request sender (`conn::http1::SendRequest` or
`conn::http2::SendRequest`). -/
abbrev Sender := Nat

/-- An opaque background connection driver (the `conn` future returned by a
protocol handshake). -/
abbrev Driver := Nat

/-- An opaque handshake error produced by the underlying protocol engine. -/
abbrev HandshakeError := Nat

/-- The protocol-tagged sender stored inside a client connection (`enum Tx`
in `client.rs`). -/
inductive Tx where
  | Http1 (tx : Sender)
  | Http2 (tx : Sender)
deriving DecidableEq, Repr

/-- An HTTP client connection handle (`hyper_clientconn` in `client.rs`). -/
structure hyper_clientconn where
  tx : Tx
deriving DecidableEq, Repr

/-- The HTTP/1 builder configuration that the handshake assembles from the
options' three header-handling flags (the three
`conn::http1::Builder` calls in `client.rs`). -/
structure Http1Cfg where
  allow_obsolete_multiline_headers_in_responses : Bool
  preserve_header_case : Bool
  preserve_header_order : Bool
deriving DecidableEq, Repr

/-- The HTTP/1 configuration carried by a given options value. -/
def http1CfgOf (o : hyper_clientconn_options) : Http1Cfg :=
  { allow_obsolete_multiline_headers_in_responses :=
      o.http1_allow_obsolete_multiline_headers_in_responses
    preserve_header_case := o.http1_preserve_header_case
    preserve_header_order := o.http1_preserve_header_order }

/-- Which protocol handshake the task performed, with the configuration it
was given. -/
inductive HandshakeCall where
  | http2 (io : Transport)
  | http1 (cfg : Http1Cfg) (io : Transport)
deriving DecidableEq, Repr

/-- The observable outcome of polling the handshake task to completion: the
resolved result, which protocol engine was invoked with which configuration,
and whether the background connection driver was spawned on the executor. -/
structure HandshakeOutcome where
  result : Except HandshakeError hyper_clientconn
  call : HandshakeCall
  driverSpawned : Bool
deriving Repr

/-- The async block built by `hyper_clientconn_handshake` in `client.rs`,
as a function of the compile-time `http2` feature flag and of the two
protocol engines (each mapping a transport to either an error or a pair of
sender and background driver). With the feature on and `options.http2` set it
performs the HTTP/2 handshake and on success wraps the sender as `Tx.Http2`;
otherwise it performs the HTTP/1 handshake configured with the three header
flags and wraps the sender as `Tx.Http1`. On success it hands the driver to
`options.exec.execute`, which (modelled from the spec, `WeakExec::execute`
being outside the provided sources) upgrades the weak reference and spawns
only if the executor is still alive. -/
def clientconn_handshake_task (http2Compiled : Bool)
    (h2 : Transport → Except HandshakeError (Sender × Driver))
    (h1 : Http1Cfg → Transport → Except HandshakeError (Sender × Driver))
    (heap : ExecHeap)
    (options : hyper_clientconn_options) (io : Transport) : HandshakeOutcome :=
  if http2Compiled && options.http2 then
    match h2 io with
    | .ok p =>
        { result := .ok { tx := Tx.Http2 p.1 }
          call := .http2 io
          driverSpawned := (options.exec.upgrade heap).isSome }
    | .error e => { result := .error e, call := .http2 io, driverSpawned := false }
  else
    let cfg := http1CfgOf options
    match h1 cfg io with
    | .ok p =>
        { result := .ok { tx := Tx.Http1 p.1 }
          call := .http1 cfg io
          driverSpawned := (options.exec.upgrade heap).isSome }
    | .error e => { result := .error e, call := .http1 cfg io, driverSpawned := false }

/-- What a call to `hyper_clientconn_handshake` returns and does to its two
input handles: `task` is the returned `hyper_task *` (`none` models a null
return, `some` carries the task's eventual outcome once polled to
completion), and the two flags record whether each input pointer was consumed
(taken over and eventually freed by the call). -/
structure HandshakeCallResult where
  task : Option HandshakeOutcome
  ioConsumed : Bool
  optionsConsumed : Bool
deriving Repr

/-- The entry point `hyper_clientconn_handshake` of `client.rs`. Following
the source, the `options` pointer is guarded and taken first
(`Box::from_raw`), then the `io` pointer; the `non_null!` guard (its macro is
outside the provided sources; modelled from the spec's null-handle error
policy) returns the written default — here a null task — when the pointer is
null. So a null `options` returns null having consumed nothing, while a null
`io` with non-null `options` returns null after the options box was already
taken and dropped. -/
def hyper_clientconn_handshake (http2Compiled : Bool)
    (h2 : Transport → Except HandshakeError (Sender × Driver))
    (h1 : Http1Cfg → Transport → Except HandshakeError (Sender × Driver))
    (heap : ExecHeap)
    (io : Option Transport) (options : Option hyper_clientconn_options) :
    HandshakeCallResult :=
  match options with
  | none => { task := none, ioConsumed := false, optionsConsumed := false }
  | some o =>
    match io with
    | none => { task := none, ioConsumed := false, optionsConsumed := true }
    | some i =>
      { task := some (clientconn_handshake_task http2Compiled h2 h1 heap o i)
        ioConsumed := true
        optionsConsumed := true }

/-- An opaque inner request value (the `req.0` field in `client.rs`). -/
abbrev InnerRequest := Nat

/-- An FFI request handle (`hyper_request`): the inner request plus a flag
recording whether its deferred header-case/header-order metadata has been
materialized into wire-ready form. -/
structure hyper_request where
  raw : InnerRequest
  wire_ready : Bool
deriving DecidableEq, Repr

/-- Modelled from the spec: `finalize_request` (`src/ffi/http_types.rs`, not
among the provided sources) materializes the request's deferred
header-ordering/casing metadata into its wire-ready form. -/
def hyper_request.finalize_request (r : hyper_request) : hyper_request :=
  { r with wire_ready := true }

/-- The future a send call builds and boxes into the returned task: which
protocol sender's `send_request` it wraps (the `Either::Left`/`Right` match
in `client.rs`) and the request it dispatches. -/
inductive SendDispatch where
  | http1 (tx : Sender) (req : hyper_request)
  | http2 (tx : Sender) (req : hyper_request)
deriving DecidableEq, Repr

/-- What a call to `hyper_clientconn_send` returns and does: `task` is the
returned `hyper_task *` (`none` models a null return), `reqConsumed` records
whether the request pointer was taken over, and `dispatched` whether a
`send_request` future was actually built on one of the connection's senders. -/
structure SendCallResult where
  task : Option SendDispatch
  reqConsumed : Bool
  dispatched : Bool
deriving DecidableEq, Repr

/-- The entry point `hyper_clientconn_send` of `client.rs`. Following the
source: the request pointer is guarded and taken first (null request returns
a null task at once); the request is then finalized; only then is the
connection pointer guarded (null connection returns a null task, the request
box having already been taken and finalized), and the dispatch is a single
match on the connection's `Tx` tag. -/
def hyper_clientconn_send (conn : Option hyper_clientconn)
    (req : Option hyper_request) : SendCallResult :=
  match req with
  | none => { task := none, reqConsumed := false, dispatched := false }
  | some r0 =>
    let r := r0.finalize_request
    match conn with
    | none => { task := none, reqConsumed := true, dispatched := false }
    | some c =>
      match c.tx with
      | .Http1 t => { task := some (.http1 t r), reqConsumed := true, dispatched := true }
      | .Http2 t => { task := some (.http2 t r), reqConsumed := true, dispatched := true }

/-- The entry point `hyper_clientconn_options_new` of `client.rs`: all four
flags false and an empty weak executor reference. -/
def hyper_clientconn_options_new : hyper_clientconn_options :=
  { http1_allow_obsolete_multiline_headers_in_responses := false
    http1_preserve_header_case := false
    http1_preserve_header_order := false
    http2 := false
    exec := WeakExec.new }

/-- The entry point `hyper_clientconn_options_set_preserve_header_case` of
`client.rs`. The C function returns void; the second component encodes the
status visible to the caller, always `none` since no status is returned. A
null options handle makes the `non_null!` guard return early (modelled from
the spec's null-handle error policy). -/
def hyper_clientconn_options_set_preserve_header_case
    (opts : Option hyper_clientconn_options) (enabled : Int) :
    Option hyper_clientconn_options × Option hyper_code :=
  match opts with
  | none => (none, none)
  | some o => (some { o with http1_preserve_header_case := enabled != 0 }, none)

/-- The entry point `hyper_clientconn_options_set_preserve_header_order` of
`client.rs`; void return encoded as a `none` status, null handle guarded as
above. -/
def hyper_clientconn_options_set_preserve_header_order
    (opts : Option hyper_clientconn_options) (enabled : Int) :
    Option hyper_clientconn_options × Option hyper_code :=
  match opts with
  | none => (none, none)
  | some o => (some { o with http1_preserve_header_order := enabled != 0 }, none)

/-- The entry point `hyper_clientconn_options_http1_allow_multiline_headers`
of `client.rs`: null handle yields `HYPERE_INVALID_ARG`, otherwise the flag
is set and `HYPERE_OK` returned. -/
def hyper_clientconn_options_http1_allow_multiline_headers
    (opts : Option hyper_clientconn_options) (enabled : Int) :
    Option hyper_clientconn_options × Option hyper_code :=
  match opts with
  | none => (none, some hyper_code.HYPERE_INVALID_ARG)
  | some o =>
    (some { o with http1_allow_obsolete_multiline_headers_in_responses := enabled != 0 },
     some hyper_code.HYPERE_OK)

/-- The entry point `hyper_clientconn_options_http2` of `client.rs`, as a
function of the compile-time `http2` feature flag. With the feature compiled
in: null handle yields `HYPERE_INVALID_ARG`, otherwise the `http2` flag is
set to `enabled != 0` and `HYPERE_OK` returned. Without the feature: both
arguments are dropped untouched and `HYPERE_FEATURE_NOT_ENABLED` is
returned. -/
def hyper_clientconn_options_http2 (http2Compiled : Bool)
    (opts : Option hyper_clientconn_options) (enabled : Int) :
    Option hyper_clientconn_options × Option hyper_code :=
  if http2Compiled then
    match opts with
    | none => (none, some hyper_code.HYPERE_INVALID_ARG)
    | some o => (some { o with http2 := enabled != 0 }, some hyper_code.HYPERE_OK)
  else
    (opts, some hyper_code.HYPERE_FEATURE_NOT_ENABLED)

/-- The entry point `hyper_clientconn_options_exec` of `client.rs`. A null
options or executor handle makes the guard return early, touching nothing.
Otherwise the source does `Arc::from_raw` (which leaves the counts as they
are), `hyper_executor::downgrade` (whose modelled effect, `Weak::clone` style,
adds one weak count), then `mem::forget` (so the strong count is not
decremented: the caller's owning reference is not consumed), and stores the
resulting weak reference in the options. -/
def hyper_clientconn_options_exec (opts : Option hyper_clientconn_options)
    (exec : Option ExecId) (heap : ExecHeap) :
    Option hyper_clientconn_options × ExecHeap :=
  match opts with
  | none => (none, heap)
  | some o =>
    match exec with
    | none => (some o, heap)
    | some e =>
      (some { o with exec := WeakExec.ref e },
       { heap with weak := fun x => if x = e then heap.weak x + 1 else heap.weak x })

/-- A concrete HTTP/2 engine that always succeeds with sender 9, driver 4. -/
def h2W : Transport → Except HandshakeError (Sender × Driver) :=
  fun _ => .ok (9, 4)

/-- A concrete HTTP/1 engine that always succeeds with sender 5, driver 6. -/
def h1W : Http1Cfg → Transport → Except HandshakeError (Sender × Driver) :=
  fun _ _ => .ok (5, 6)

/-- A concrete executor heap in which every executor has been released. -/
def heapW : ExecHeap := { strong := fun _ => 0, weak := fun _ => 0 }

/-- Concrete options selecting HTTP/2. -/
def optsHttp2 : hyper_clientconn_options :=
  { hyper_clientconn_options_new with http2 := true }

/-- C1: for every non-null io transport and non-null options, the handshake
returns the task of `clientconn_handshake_task`; that task performs the
HTTP/2 handshake exactly when the options' http2 flag is set and HTTP/2
support is compiled in, and otherwise the HTTP/1 handshake configured with
the options' three header-handling flags; on success the resulting
`hyper_clientconn` holds the `Tx` variant matching that selection. -/
theorem handshake_protocol_selection (http2Compiled : Bool)
    (h2 : Transport → Except HandshakeError (Sender × Driver))
    (h1 : Http1Cfg → Transport → Except HandshakeError (Sender × Driver))
    (heap : ExecHeap) (i : Transport) (o : hyper_clientconn_options) :
    (hyper_clientconn_handshake http2Compiled h2 h1 heap (some i) (some o)).task
        = some (clientconn_handshake_task http2Compiled h2 h1 heap o i)
    ∧ ((http2Compiled && o.http2) = true →
        (clientconn_handshake_task http2Compiled h2 h1 heap o i).call
            = HandshakeCall.http2 i
        ∧ ∀ tx conn, h2 i = .ok (tx, conn) →
            (clientconn_handshake_task http2Compiled h2 h1 heap o i).result
              = .ok { tx := Tx.Http2 tx })
    ∧ ((http2Compiled && o.http2) = false →
        (clientconn_handshake_task http2Compiled h2 h1 heap o i).call
            = HandshakeCall.http1 (http1CfgOf o) i
        ∧ ∀ tx conn, h1 (http1CfgOf o) i = .ok (tx, conn) →
            (clientconn_handshake_task http2Compiled h2 h1 heap o i).result
              = .ok { tx := Tx.Http1 tx }) := by
  refine ⟨rfl, fun hb => ⟨?_, ?_⟩, fun hb => ⟨?_, ?_⟩⟩
  · cases hh : h2 i <;> simp [clientconn_handshake_task, hb, hh]
  · intro tx conn hok
    simp [clientconn_handshake_task, hb, hok]
  · cases hh : h1 (http1CfgOf o) i <;> simp [clientconn_handshake_task, hb, hh]
  · intro tx conn hok
    simp [clientconn_handshake_task, hb, hok]

/-- C1 witness: at concrete inputs with HTTP/2 compiled in and selected, a
successful HTTP/2 engine yields the `Tx.Http2` connection. -/
theorem handshake_protocol_selection_witness :
    (clientconn_handshake_task true h2W h1W heapW optsHttp2 3).result
      = .ok { tx := Tx.Http2 9 } :=
  ((handshake_protocol_selection true h2W h1W heapW 3 optsHttp2).2.1
      (by simp [optsHttp2])).2 9 4 rfl

/-- C2: without HTTP/2 support compiled in, `hyper_clientconn_options_http2`
returns `HYPERE_FEATURE_NOT_ENABLED` for every input and leaves the options
untouched; with it compiled in and a non-null handle it sets the flag to
`enabled != 0` and returns `HYPERE_OK`. -/
theorem options_http2_feature_gate :
    (∀ (opts : Option hyper_clientconn_options) (enabled : Int),
        hyper_clientconn_options_http2 false opts enabled
          = (opts, some hyper_code.HYPERE_FEATURE_NOT_ENABLED))
    ∧ (∀ (o : hyper_clientconn_options) (enabled : Int),
        hyper_clientconn_options_http2 true (some o) enabled
          = (some { o with http2 := enabled != 0 }, some hyper_code.HYPERE_OK)) :=
  ⟨fun _ _ => rfl, fun _ _ => rfl⟩

/-- C3: `hyper_clientconn_handshake` returns a null task exactly when the io
handle or the options handle is null. -/
theorem handshake_null_iff (http2Compiled : Bool)
    (h2 : Transport → Except HandshakeError (Sender × Driver))
    (h1 : Http1Cfg → Transport → Except HandshakeError (Sender × Driver))
    (heap : ExecHeap) (io : Option Transport)
    (options : Option hyper_clientconn_options) :
    (hyper_clientconn_handshake http2Compiled h2 h1 heap io options).task = none
      ↔ io = none ∨ options = none := by
  cases options <;> cases io <;> simp [hyper_clientconn_handshake]

/-- C3 witness: a null io handle with non-null options yields a null task. -/
theorem handshake_null_iff_witness :
    (hyper_clientconn_handshake false h2W h1W heapW none
        (some hyper_clientconn_options_new)).task = none :=
  (handshake_null_iff false h2W h1W heapW none
      (some hyper_clientconn_options_new)).mpr (Or.inl rfl)

/-- C4: for every request argument, `hyper_clientconn_send` with a null
connection handle returns a null task and builds no dispatch future. -/
theorem send_null_conn (req : Option hyper_request) :
    (hyper_clientconn_send none req).task = none
    ∧ (hyper_clientconn_send none req).dispatched = false := by
  cases req <;> exact ⟨rfl, rfl⟩

/-- C5: for every non-null connection and request, `hyper_clientconn_send`
dispatches the finalized request by a pure match on the connection's `Tx`
tag — `Http1` tag uses the HTTP/1 sender, `Http2` tag the HTTP/2 sender —
and the finalized request is in wire-ready form. -/
theorem send_dispatch_pure_tag_match (c : hyper_clientconn) (r : hyper_request) :
    hyper_clientconn_send (some c) (some r)
      = { task := some (match c.tx with
              | .Http1 t => SendDispatch.http1 t r.finalize_request
              | .Http2 t => SendDispatch.http2 t r.finalize_request)
          reqConsumed := true
          dispatched := true }
    ∧ (r.finalize_request).wire_ready = true := by
  refine ⟨?_, rfl⟩
  cases c with
  | mk tx => cases tx <;> rfl

/-- C6 counterexample: `hyper_clientconn_options_set_preserve_header_case`
invoked with a null options handle returns no status code at all (the C
function returns void), so it does not return a failure code to the caller. -/
theorem set_preserve_header_case_null_no_failure_code :
    ¬ ∃ c : hyper_code, c ≠ hyper_code.HYPERE_OK ∧
        (hyper_clientconn_options_set_preserve_header_case none 1).2 = some c := by
  rintro ⟨c, -, h⟩
  simp [hyper_clientconn_options_set_preserve_header_case] at h

/-- C6 (amended): every options setter invoked with a null options handle is
a no-op on all state and returns a defined result — the status-returning
setters (`http2`, `http1_allow_multiline_headers`) return a failure code,
while the void setters (`set_preserve_header_case`,
`set_preserve_header_order`, `exec`) return without any status — and none of
them touches the executor heap. -/
theorem setters_null_noop (enabled : Int) (e : ExecId) (heap : ExecHeap)
    (compiled : Bool) :
    hyper_clientconn_options_set_preserve_header_case none enabled = (none, none)
    ∧ hyper_clientconn_options_set_preserve_header_order none enabled = (none, none)
    ∧ hyper_clientconn_options_http1_allow_multiline_headers none enabled
        = (none, some hyper_code.HYPERE_INVALID_ARG)
    ∧ hyper_clientconn_options_http2 compiled none enabled
        = (none, some (if compiled then hyper_code.HYPERE_INVALID_ARG
                       else hyper_code.HYPERE_FEATURE_NOT_ENABLED))
    ∧ hyper_clientconn_options_exec none (some e) heap = (none, heap) := by
  refine ⟨rfl, rfl, rfl, ?_, rfl⟩
  cases compiled <;> rfl

/-- C7: a fresh options object has all four flags false and its stored weak
executor reference upgrades to nothing in every executor heap. -/
theorem options_new_defaults :
    hyper_clientconn_options_new.http1_allow_obsolete_multiline_headers_in_responses
        = false
    ∧ hyper_clientconn_options_new.http1_preserve_header_case = false
    ∧ hyper_clientconn_options_new.http1_preserve_header_order = false
    ∧ hyper_clientconn_options_new.http2 = false
    ∧ ∀ heap : ExecHeap, hyper_clientconn_options_new.exec.upgrade heap = none :=
  ⟨rfl, rfl, rfl, rfl, fun _ => rfl⟩

/-- C8: `hyper_clientconn_options_exec` with non-null handles leaves every
strong reference count unchanged (the caller's owning reference is not
consumed), stores exactly a weak reference to the executor in the options,
and that weak reference does not keep the executor alive: once the strong
count is zero, upgrading it in the post-call heap yields nothing. -/
theorem options_exec_borrows (o : hyper_clientconn_options) (e : ExecId)
    (heap : ExecHeap) :
    (∀ x, ((hyper_clientconn_options_exec (some o) (some e) heap).2).strong x
        = heap.strong x)
    ∧ (hyper_clientconn_options_exec (some o) (some e) heap).1
        = some { o with exec := WeakExec.ref e }
    ∧ (heap.strong e = 0 →
        WeakExec.upgrade (WeakExec.ref e)
          (hyper_clientconn_options_exec (some o) (some e) heap).2 = none) := by
  refine ⟨fun _ => rfl, rfl, fun h0 => ?_⟩
  simp [WeakExec.upgrade, hyper_clientconn_options_exec, h0]

/-- C8 witness: at concrete inputs with a released executor, the weak
reference stored by the call upgrades to nothing. -/
theorem options_exec_borrows_witness :
    WeakExec.upgrade (WeakExec.ref 0)
      (hyper_clientconn_options_exec (some hyper_clientconn_options_new)
          (some 0) heapW).2 = none :=
  (options_exec_borrows hyper_clientconn_options_new 0 heapW).2.2 rfl

/-- C9: whenever the protocol engine of the selected branch succeeds, the
handshake task resolves with a connection handle; the resolved result does
not depend on the executor heap at all, and if the weak executor reference
upgrades to nothing the background driver is simply not spawned. -/
theorem handshake_success_without_executor (http2Compiled : Bool)
    (h2 : Transport → Except HandshakeError (Sender × Driver))
    (h1 : Http1Cfg → Transport → Except HandshakeError (Sender × Driver))
    (heap heap' : ExecHeap) (o : hyper_clientconn_options) (i : Transport)
    (tx conn : Nat)
    (hs2 : (http2Compiled && o.http2) = true → h2 i = .ok (tx, conn))
    (hs1 : (http2Compiled && o.http2) = false →
        h1 (http1CfgOf o) i = .ok (tx, conn)) :
    (∃ c : hyper_clientconn,
        (clientconn_handshake_task http2Compiled h2 h1 heap o i).result = .ok c)
    ∧ (clientconn_handshake_task http2Compiled h2 h1 heap o i).result
        = (clientconn_handshake_task http2Compiled h2 h1 heap' o i).result
    ∧ (o.exec.upgrade heap = none →
        (clientconn_handshake_task http2Compiled h2 h1 heap o i).driverSpawned
          = false) := by
  cases hb : http2Compiled && o.http2
  · have hok := hs1 hb
    refine ⟨⟨{ tx := Tx.Http1 tx }, ?_⟩, ?_, fun hup => ?_⟩
    · simp [clientconn_handshake_task, hb, hok]
    · simp [clientconn_handshake_task, hb, hok]
    · simp [clientconn_handshake_task, hb, hok, hup]
  · have hok := hs2 hb
    refine ⟨⟨{ tx := Tx.Http2 tx }, ?_⟩, ?_, fun hup => ?_⟩
    · simp [clientconn_handshake_task, hb, hok]
    · simp [clientconn_handshake_task, hb, hok]
    · simp [clientconn_handshake_task, hb, hok, hup]

/-- C9 witness: with every executor released and a succeeding HTTP/1 engine,
the task still resolves successfully and spawns no driver. -/
theorem handshake_success_without_executor_witness :
    (clientconn_handshake_task false h2W h1W heapW
        hyper_clientconn_options_new 2).driverSpawned = false :=
  (handshake_success_without_executor false h2W h1W heapW heapW
      hyper_clientconn_options_new 2 5 6
      (fun h => Bool.noConfusion h) (fun _ => rfl)).2.2 rfl

/-- C10: `hyper_clientconn_handshake` checks and consumes its inputs options
first, then io: a null options handle yields a null task with neither input
consumed, while a non-null options handle with a null io handle yields a
null task with the options already consumed and the io untouched. -/
theorem handshake_consume_order (http2Compiled : Bool)
    (h2 : Transport → Except HandshakeError (Sender × Driver))
    (h1 : Http1Cfg → Transport → Except HandshakeError (Sender × Driver))
    (heap : ExecHeap) :
    (∀ io : Option Transport,
        hyper_clientconn_handshake http2Compiled h2 h1 heap io none
          = { task := none, ioConsumed := false, optionsConsumed := false })
    ∧ (∀ o : hyper_clientconn_options,
        hyper_clientconn_handshake http2Compiled h2 h1 heap none (some o)
          = { task := none, ioConsumed := false, optionsConsumed := true }) :=
  ⟨fun _ => rfl, fun _ => rfl⟩
